import Mathlib

/-!
Shallow embedding of the product-catalog service defined by `src/main.py` and
`src/schemas.py`: the pydantic record schema for products, the FastAPI route
handlers (list, get-by-slug, create, seed, schema introspection) and the
document-store adapter.  The module `database.py` that `main.py` imports is not
part of the sources, so the adapter operations (`create_document`,
`get_documents`, the `db` handle and pymongo's `find_one`) are modelled from
the specification of the Persistence Adapter; each such definition is marked
`Modelled from the spec:` in its doc comment.  Numbers use `ℚ` for Python
floats and `Int`/`Nat` for integers.
-/

namespace Catalog

/-- A variant group, mirroring the pydantic model `schemas.Variant`:
a `name` and an ordered list of `options`. -/
structure Variant where
  name : String
  options : List String
deriving DecidableEq, Repr

/-- A product record, mirroring the field declarations (names, order and
optionality) of the pydantic model `schemas.Product`. -/
structure Product where
  title : String
  slug : String
  description : Option String
  price : ℚ
  compare_at_price : Option ℚ
  category : String
  images : List String
  model_url : Option String
  variants : List Variant
  badges : List String
  rating : ℚ
  review_count : Int
  in_stock : Bool
  specs : List (String × String)
deriving DecidableEq, Repr

/-- The pydantic range validation of `schemas.Product`: the names of all
fields whose declared `ge`/`le` bound is violated, in field-declaration order
(`price` ge 0, `compare_at_price` ge 0 when present, `rating` in [0, 5],
`review_count` ge 0).  Pydantic collects one error per offending field, so a
record is accepted exactly when this list is empty.  The string fields carry
no value constraint in `schemas.py` (no `min_length`), hence contribute no
entry. -/
def Product.violations (p : Product) : List String :=
  (if p.price < 0 then ["price"] else []) ++
  (match p.compare_at_price with
   | some c => if c < 0 then ["compare_at_price"] else []
   | none => []) ++
  (if p.rating < 0 ∨ 5 < p.rating then ["rating"] else []) ++
  (if p.review_count < 0 then ["review_count"] else [])

/-- The values that occur in stored documents: strings, floats, ints,
booleans, `None`, store-assigned object identifiers, and the list/map shapes
used by the product fields. -/
inductive Value where
  | str (s : String)
  | num (q : ℚ)
  | int (n : Int)
  | bool (b : Bool)
  | null
  | oid (n : Nat)
  | strList (l : List String)
  | variantList (l : List Variant)
  | strMap (m : List (String × String))
deriving DecidableEq, Repr

/-- A document: a Python dict as an association list of field name / value
pairs (keys unique in every dict that actually arises). -/
abbrev Doc := List (String × Value)

/-- Serialization of an optional string field (`None` becomes `null`). -/
def optStr : Option String → Value
  | some s => .str s
  | none => .null

/-- Serialization of an optional float field (`None` becomes `null`). -/
def optNum : Option ℚ → Value
  | some q => .num q
  | none => .null

/-- `Product.model_dump()`: the document stored for a product, keys in the
field order declared in `schemas.Product`. -/
def Product.toDoc (p : Product) : Doc :=
  [("title", .str p.title),
   ("slug", .str p.slug),
   ("description", optStr p.description),
   ("price", .num p.price),
   ("compare_at_price", optNum p.compare_at_price),
   ("category", .str p.category),
   ("images", .strList p.images),
   ("model_url", optStr p.model_url),
   ("variants", .variantList p.variants),
   ("badges", .strList p.badges),
   ("rating", .num p.rating),
   ("review_count", .int p.review_count),
   ("in_stock", .bool p.in_stock),
   ("specs", .strMap p.specs)]

/-- Modelled from the spec: the state of the "product" collection behind the
missing `database.py` adapter (§4.2) — the stored documents paired with their
store-assigned identifiers, in the store's natural (insertion) order, plus
the next fresh identifier. -/
structure Store where
  nextId : Nat
  docs : List (Nat × Doc)
deriving DecidableEq, Repr

/-- The text form of a store identifier, as Python `str()` produces for the
value popped from the `_id` field.  Only `oid` values ever reach this
function in the embedded handlers. -/
def oidText : Value → String
  | .oid n => Nat.repr n
  | .str s => s
  | _ => ""

/-- A mongo-style equality filter: every key/value pair of the filter must
be present in the document. -/
def matchesFilter (f : Doc) (d : Doc) : Bool :=
  f.all fun kv => decide (d.lookup kv.1 = some kv.2)

/-- Modelled from the spec: §4.2 `createDocument` inserts the record and
returns the store-assigned identifier as opaque text. -/
def create_document (s : Store) (rec : Doc) : Store × String :=
  (⟨s.nextId + 1, s.docs ++ [(s.nextId, rec)]⟩, Nat.repr s.nextId)

/-- Modelled from the spec: §4.2 `getDocuments` returns up to `limit`
matching records in the store's natural order; each returned document carries
its store-native identifier in the `_id` field, as pymongo's `find` does. -/
def get_documents (s : Store) (f : Doc) (limit : Nat) : List Doc :=
  ((s.docs.filter fun od => matchesFilter f od.2).take limit).map
    fun od => ("_id", Value.oid od.1) :: od.2

/-- Modelled from the spec: §4.2 `getOne` (and pymongo `find_one`) returns
the first match or an absent marker, never an error for "not found". -/
def find_one (s : Store) (f : Doc) : Option Doc :=
  (get_documents s f 1).head?

/-- Python truthiness of a `find_one` result: `None` and the empty dict are
falsy, any non-empty dict is truthy. -/
def truthy : Option Doc → Bool
  | none => false
  | some d => !d.isEmpty

/-- `d.pop(k)` on a dict, viewed on the association list: the entry keyed
`k` is removed (dicts hold one entry per key). -/
def dictPop (d : Doc) (k : String) : Doc :=
  d.filter fun kv => !(kv.1 == k)

/-- `d[k] = v` on a dict: replace the value at `k` if the key is present,
otherwise append the new entry at the end. -/
def dictSet (d : Doc) (k : String) (v : Value) : Doc :=
  bif d.any fun kv => kv.1 == k then
    d.map fun kv => bif kv.1 == k then (k, v) else kv
  else d ++ [(k, v)]

/-- The identifier renaming both read handlers perform:
`d["id"] = str(d.pop("_id"))`, guarded by `"_id" in d` in `list_products`
(documents coming back from the store always carry `_id`). -/
def exposeId (d : Doc) : Doc :=
  match d.lookup "_id" with
  | some v => dictSet (dictPop d "_id") "id" (Value.str (oidText v))
  | none => d

/-- GET `/api/products` — `list_products` in `main.py`: fetch up to `limit`
documents of the "product" collection and rename `_id` to `id`. -/
def list_products (s : Store) (limit : Nat) : List Doc :=
  (get_documents s [] limit).map exposeId

/-- GET `/api/products/{slug}` — `get_product` in `main.py`: `find_one` on
the slug; a falsy result raises HTTP 404, otherwise `_id` is renamed to `id`
and the document returned. -/
def get_product (s : Store) (slug : String) : Except Nat Doc :=
  match find_one s [("slug", Value.str slug)] with
  | none => .error 404
  | some d => if d.isEmpty then .error 404 else .ok (exposeId d)

/-- The possible outcomes of POST `/api/products`: HTTP 422 with the list of
offending fields when request-body validation fails, HTTP 400 ("Slug already
exists") on a duplicate slug, or the new store state and the returned id. -/
inductive CreateResponse where
  | validationError (fields : List String)
  | duplicateSlug
  | created (s : Store) (id : String)
deriving DecidableEq, Repr

/-- The body of the POST `/api/products` handler (`create_product` in
`main.py`), entered with an already-validated payload: `find_one` on the
payload's slug, HTTP 400 when truthy, otherwise `create_document`. -/
def create_product (s : Store) (payload : Product) : CreateResponse :=
  if truthy (find_one s [("slug", Value.str payload.slug)]) then .duplicateSlug
  else
    let r := create_document s payload.toDoc
    .created r.1 r.2

/-- The full POST `/api/products` pipeline: FastAPI validates the request
body against `ProductCreate` (which just inherits `Product`) before the
handler body runs, so an invalid payload is rejected with the per-field
errors and the handler — including its slug check — is never entered. -/
def create_product_endpoint (s : Store) (raw : Product) : CreateResponse :=
  if raw.violations = [] then create_product s raw
  else .validationError raw.violations

/-- The error taxonomy of the Persistence Adapter (§4.2, §7): no live
connection, or any other backend failure. -/
inductive StorageErr where
  | storageUnavailable
  | storageError
deriving DecidableEq, Repr

/-- The `{status, message}` dict returned by POST `/seed`. -/
structure SeedReply where
  status : String
  message : String
deriving DecidableEq, Repr

/-- The first demo product of `seed_demo_products`, transcribed literally. -/
def demoProduct1 : Product :=
  { title := "Specter Series X1"
    slug := "specter-series-x1"
    description := some "Monolithic precision. Forged for power."
    price := 1299
    compare_at_price := some 1499
    category := "hardware"
    images :=
      ["https://images.unsplash.com/photo-1527443154391-507e9dc6c5cc?q=80&w=1600&auto=format&fit=crop",
       "https://images.unsplash.com/photo-1542751371-adc38448a05e?q=80&w=1600&auto=format&fit=crop"]
    model_url := some "https://prod.spline.design/8J9sS3L8q1sV9t8A/scene.splinecode"
    variants :=
      [⟨"Finish", ["Obsidian Black", "Liquid Silver"]⟩,
       ⟨"Capacity", ["256GB", "512GB", "1TB"]⟩]
    badges := ["2-Year Warranty", "Free Express Shipping", "30-Day Returns"]
    rating := 4.9
    review_count := 312
    in_stock := true
    specs := [("CPU", "NeonCore M3"), ("GPU", "RayFlux 8G"), ("Weight", "1.2kg")] }

/-- The second demo product of `seed_demo_products`, transcribed literally. -/
def demoProduct2 : Product :=
  { title := "Nebula Pro V"
    slug := "nebula-pro-v"
    description := some "Zero compromise. Ultra light."
    price := 999
    compare_at_price := some 1199
    category := "hardware"
    images :=
      ["https://images.unsplash.com/photo-1555617981-dac3880d511d?q=80&w=1600&auto=format&fit=crop",
       "https://images.unsplash.com/photo-1517336714731-489689fd1ca8?q=80&w=1600&auto=format&fit=crop"]
    model_url := some "https://prod.spline.design/G8j2l6m1y7X2m6xD/scene.splinecode"
    variants :=
      [⟨"Finish", ["Chrome", "Graphite"]⟩,
       ⟨"Capacity", ["128GB", "256GB", "512GB"]⟩]
    badges := ["Premium Support", "Insured Delivery"]
    rating := 4.8
    review_count := 198
    in_stock := true
    specs := [("CPU", "IonDrive X"), ("Display", "120Hz OLED"), ("Weight", "0.98kg")] }

/-- POST `/seed` — `seed_demo_products` in `main.py`.  The count is taken
from the live handle via `count_documents({})`, or is 0 when `db` is `None`
(`if db else 0`).  A positive count short-circuits into the "already
present" reply; otherwise the two demo products are inserted through the
adapter, which (modelled from the spec, §4.2/§7) fails with
`StorageUnavailable` when no live handle exists. -/
def seed_demo_products (db : Option Store) : Except StorageErr (Option Store × SeedReply) :=
  let count := match db with
    | none => 0
    | some s => (s.docs.filter fun od => matchesFilter [] od.2).length
  if count > 0 then .ok (db, ⟨"ok", "Products already present"⟩)
  else
    match db with
    | none => .error .storageUnavailable
    | some s =>
      let r1 := create_document s demoProduct1.toDoc
      let r2 := create_document r1.1 demoProduct2.toDoc
      .ok (some r2.1, ⟨"ok", "Seeded demo products"⟩)

/-- The field names of `schemas.Product` in declaration order; the
`properties` of `Product.model_json_schema()` list exactly these. -/
def productModelFields : List String :=
  ["title", "slug", "description", "price", "compare_at_price", "category",
   "images", "model_url", "variants", "badges", "rating", "review_count",
   "in_stock", "specs"]

/-- GET `/schema` — the `models` map of `get_schema` in `main.py`, reduced
to its field-name content: the product entry carries the json-schema
properties of `Product`. -/
def get_schema : List (String × List String) :=
  [("product", productModelFields)]

/-- The Product fields as §3 of the specification declares them, in the
order listed there (refinement comparison target, written from the spec's
words, not from the code). -/
def specProductFields : List String :=
  ["title", "slug", "description", "price", "compare_at_price", "category",
   "images", "model_url", "variants", "badges", "rating", "review_count",
   "in_stock", "specs"]

/-! ### Helper lemmas: decimal representation, dict operations, store reads -/

lemma length_le_toDigitsCore (b : Nat) :
    ∀ (f n : Nat) (ds : List Char), ds.length ≤ (Nat.toDigitsCore b f n ds).length := by
  intro f
  induction f with
  | zero => intro n ds; exact Nat.le_refl _
  | succ f ih =>
    intro n ds
    show ds.length ≤ (if n / b = 0 then Nat.digitChar (n % b) :: ds
      else Nat.toDigitsCore b f (n / b) (Nat.digitChar (n % b) :: ds)).length
    by_cases h : n / b = 0
    · simp [h]
    · simp only [h, if_false]
      exact le_trans (Nat.le_succ _) (ih (n / b) (Nat.digitChar (n % b) :: ds))

lemma one_le_length_toDigits (n : Nat) : 1 ≤ (Nat.toDigits 10 n).length := by
  show 1 ≤ (if n / 10 = 0 then Nat.digitChar (n % 10) :: ([] : List Char)
    else Nat.toDigitsCore 10 n (n / 10) (Nat.digitChar (n % 10) :: [])).length
  by_cases h : n / 10 = 0
  · simp [h]
  · simp only [h, if_false]
    exact le_trans (by simp) (length_le_toDigitsCore 10 n (n / 10) _)

lemma repr_ne_empty (n : Nat) : Nat.repr n ≠ "" := by
  intro h
  have hlen : (Nat.toDigits 10 n).length = 0 := congrArg String.length h
  have := one_le_length_toDigits n
  omega

lemma lookup_none_of_keys_ne (d : Doc) (k : String) (h : ∀ kv ∈ d, kv.1 ≠ k) :
    d.lookup k = none := by
  induction d with
  | nil => rfl
  | cons kv d ih =>
    have hk : (k == kv.1) = false := by
      simp [Ne.symm (h kv (List.mem_cons_self kv d))]
    simp only [List.lookup, hk]
    exact ih fun a ha => h a (List.mem_cons_of_mem kv ha)

lemma lookup_append_of_left_none (d1 d2 : Doc) (k : String)
    (h : d1.lookup k = none) : (d1 ++ d2).lookup k = d2.lookup k := by
  induction d1 with
  | nil => rfl
  | cons kv d1 ih =>
    rcases kv with ⟨k1, v1⟩
    cases hx : (k == k1) with
    | true =>
      simp only [List.lookup, hx] at h
      exact Option.noConfusion h
    | false =>
      simp only [List.lookup, hx] at h
      simp only [List.cons_append, List.lookup, hx]
      exact ih h

lemma lookup_dictPop (d : Doc) (k : String) : (dictPop d k).lookup k = none := by
  apply lookup_none_of_keys_ne
  intro kv hkv
  have := List.of_mem_filter hkv
  simpa using this

lemma any_key_of_lookup_ne_none (d : Doc) (k : String) (h : ¬ d.lookup k = none) :
    (d.any fun kv => kv.1 == k) = true := by
  by_contra hany
  apply h
  apply lookup_none_of_keys_ne
  intro kv hkv
  intro hk
  apply hany
  exact List.any_eq_true.mpr ⟨kv, hkv, by simp [hk]⟩

lemma lookup_append_single_ne (d : Doc) (k k2 : String) (v : Value) (hne : k2 ≠ k) :
    (d ++ [(k, v)]).lookup k2 = d.lookup k2 := by
  induction d with
  | nil => simp [List.lookup, show (k2 == k) = false by simp [hne]]
  | cons kv d ih =>
    rcases kv with ⟨k1, v1⟩
    simp only [List.cons_append, List.lookup]
    cases hx : (k2 == k1) with
    | true => rfl
    | false => exact ih

lemma lookup_map_set (d : Doc) (k : String) (v : Value)
    (h : (d.any fun kv => kv.1 == k) = true) :
    (d.map fun kv => bif kv.1 == k then (k, v) else kv).lookup k = some v := by
  induction d with
  | nil => cases h
  | cons kv d ih =>
    rcases kv with ⟨k1, v1⟩
    cases h1 : (k1 == k) with
    | true =>
      simp only [List.map_cons, h1, Bool.cond_true, List.lookup, beq_self_eq_true]
    | false =>
      have hrest : (d.any fun kv => kv.1 == k) = true := by
        simp only [List.any_cons, h1, Bool.false_or] at h
        exact h
      have hk : (k == k1) = false := by
        simp only [beq_eq_false_iff_ne] at h1 ⊢
        exact Ne.symm h1
      simp only [List.map_cons, h1, Bool.cond_false, List.lookup, hk]
      exact ih hrest

lemma lookup_map_set_ne (d : Doc) (k k2 : String) (v : Value) (hne : k2 ≠ k) :
    (d.map fun kv => bif kv.1 == k then (k, v) else kv).lookup k2 = d.lookup k2 := by
  induction d with
  | nil => rfl
  | cons kv d ih =>
    rcases kv with ⟨k1, v1⟩
    cases h1 : (k1 == k) with
    | true =>
      have hk2 : (k2 == k) = false := by simp [hne]
      have hk2b : (k2 == k1) = false := by
        have he : k1 = k := by simpa using h1
        simp [he, hne]
      simp only [List.map_cons, h1, Bool.cond_true, List.lookup, hk2, hk2b]
      exact ih
    | false =>
      simp only [List.map_cons, h1, Bool.cond_false, List.lookup]
      cases hx : (k2 == k1) with
      | true => rfl
      | false => exact ih

lemma lookup_dictSet (d : Doc) (k : String) (v : Value) :
    (dictSet d k v).lookup k = some v := by
  unfold dictSet
  cases h : (d.any fun kv => kv.1 == k) with
  | true =>
    simp only [Bool.cond_true]
    exact lookup_map_set d k v h
  | false =>
    simp only [Bool.cond_false]
    have hnone : d.lookup k = none := by
      apply lookup_none_of_keys_ne
      intro kv hkv hk
      have : (d.any fun kv => kv.1 == k) = true :=
        List.any_eq_true.mpr ⟨kv, hkv, by simp [hk]⟩
      rw [h] at this
      cases this
    rw [lookup_append_of_left_none d _ k hnone]
    simp [List.lookup]

lemma lookup_dictSet_ne (d : Doc) (k k2 : String) (v : Value) (hne : k2 ≠ k) :
    (dictSet d k v).lookup k2 = d.lookup k2 := by
  unfold dictSet
  cases h : (d.any fun kv => kv.1 == k) with
  | true =>
    simp only [Bool.cond_true]
    exact lookup_map_set_ne d k k2 v hne
  | false =>
    simp only [Bool.cond_false]
    exact lookup_append_single_ne d k k2 v hne

lemma matchesFilter_nil (d : Doc) : matchesFilter [] d = true := rfl

lemma filter_matches_nil (l : List (Nat × Doc)) :
    (l.filter fun od => matchesFilter [] od.2) = l :=
  List.filter_eq_self.mpr fun a _ => rfl

lemma matchesFilter_single (k : String) (v : Value) (d : Doc) :
    matchesFilter [(k, v)] d = decide (d.lookup k = some v) := by
  simp [matchesFilter]

lemma lookup_slug_toDoc (p : Product) :
    p.toDoc.lookup "slug" = some (Value.str p.slug) := rfl

lemma filter_slug_fresh (s : Store) (slug : String)
    (h : ∀ od ∈ s.docs, od.2.lookup "slug" ≠ some (Value.str slug)) :
    (s.docs.filter fun od => matchesFilter [("slug", Value.str slug)] od.2) = [] := by
  apply List.filter_eq_nil_iff.mpr
  intro od hod
  rw [matchesFilter_single]
  simp only [decide_eq_true_eq]
  exact h od hod

lemma find_one_slug_fresh (s : Store) (slug : String)
    (h : ∀ od ∈ s.docs, od.2.lookup "slug" ≠ some (Value.str slug)) :
    find_one s [("slug", Value.str slug)] = none := by
  unfold find_one get_documents
  rw [filter_slug_fresh s slug h]
  rfl

lemma find_one_insert (s : Store) (p : Product)
    (h : ∀ od ∈ s.docs, od.2.lookup "slug" ≠ some (Value.str p.slug)) :
    find_one ⟨s.nextId + 1, s.docs ++ [(s.nextId, p.toDoc)]⟩ [("slug", Value.str p.slug)] =
      some (("_id", Value.oid s.nextId) :: p.toDoc) := by
  unfold find_one get_documents
  show ((((s.docs ++ [(s.nextId, p.toDoc)]).filter
      fun od => matchesFilter [("slug", Value.str p.slug)] od.2).take 1).map
      fun od => ("_id", Value.oid od.1) :: od.2).head? = _
  have hmatch : matchesFilter [("slug", Value.str p.slug)] p.toDoc = true := by
    rw [matchesFilter_single]
    exact decide_eq_true (lookup_slug_toDoc p)
  rw [List.filter_append, filter_slug_fresh s p.slug h]
  simp [List.filter_cons, hmatch]

lemma exposeId_cons (n : Nat) (fields : Doc) :
    exposeId (("_id", Value.oid n) :: fields) =
      dictSet (dictPop fields "_id") "id" (Value.str (Nat.repr n)) := rfl

lemma exposeId_cons_lookup_uid (n : Nat) (fields : Doc) :
    (exposeId (("_id", Value.oid n) :: fields)).lookup "_id" = none := by
  rw [exposeId_cons, lookup_dictSet_ne _ _ _ _ (by decide), lookup_dictPop]

lemma exposeId_cons_lookup_id (n : Nat) (fields : Doc) :
    (exposeId (("_id", Value.oid n) :: fields)).lookup "id" =
      some (Value.str (Nat.repr n)) := by
  rw [exposeId_cons, lookup_dictSet]

lemma mem_get_documents_shape (s : Store) (f : Doc) (limit : Nat) (d : Doc)
    (h : d ∈ get_documents s f limit) :
    ∃ n fields, d = ("_id", Value.oid n) :: fields := by
  unfold get_documents at h
  rcases List.mem_map.mp h with ⟨od, _, rfl⟩
  exact ⟨od.1, od.2, rfl⟩

lemma find_one_shape (s : Store) (f : Doc) (d : Doc)
    (h : find_one s f = some d) :
    ∃ n fields, d = ("_id", Value.oid n) :: fields := by
  unfold find_one at h
  have hmem : d ∈ get_documents s f 1 := by
    rcases hx : get_documents s f 1 with _ | ⟨a, l⟩ <;> rw [hx] at h
    · cases h
    · simp only [List.head?] at h
      injection h with h2
      rw [h2]
      exact List.mem_cons_self d l
  exact mem_get_documents_shape s f 1 d hmem

/-! ### Concrete states and payloads used by witnesses and counterexamples -/

/-- The store as it stands after seeding an empty collection: the two demo
products at identifiers 0 and 1. -/
def seededStore : Store := ⟨2, [(0, demoProduct1.toDoc), (1, demoProduct2.toDoc)]⟩

/-- A store already holding a product with slug "specter-series-x1". -/
def dupStore : Store := ⟨1, [(0, demoProduct1.toDoc)]⟩

/-- A payload that fails schema validation (rating 7 is outside [0, 5]) and
whose slug collides with the one in `dupStore`. -/
def invalidDupPayload : Product := { demoProduct1 with rating := 7 }

/-- A payload with empty `title`, `slug` and `category` and all numeric
constraints satisfied. -/
def emptyFieldProduct : Product :=
  { demoProduct1 with title := "", slug := "", category := "" }

/-- A payload violating three numeric constraints at once. -/
def badProduct : Product :=
  { demoProduct1 with price := -1, rating := 7, review_count := -2 }

lemma demoProduct1_valid : demoProduct1.violations = [] := by
  norm_num [demoProduct1, Product.violations]

lemma demoProduct2_constraints :
    0 ≤ demoProduct2.price ∧
    (∀ c, demoProduct2.compare_at_price = some c → 0 ≤ c) ∧
    0 ≤ demoProduct2.rating ∧ demoProduct2.rating ≤ 5 ∧
    0 ≤ demoProduct2.review_count := by
  refine ⟨by norm_num [demoProduct2], ?_, by norm_num [demoProduct2],
    by norm_num [demoProduct2], by norm_num [demoProduct2]⟩
  intro c hc
  have h1 : demoProduct2.compare_at_price = some (1199 : ℚ) := rfl
  rw [h1] at hc
  injection hc with h2
  rw [← h2]
  norm_num

lemma invalidDupPayload_violations : invalidDupPayload.violations = ["rating"] := by
  norm_num [invalidDupPayload, demoProduct1, Product.violations]

/-! ### Claim theorems -/

/-- C3: for every raw Product record passed through validation, each field
violating its declared constraint (rating outside [0, 5], negative price,
negative `compare_at_price`, negative `review_count`) contributes a
`ValidationError` entry naming that field; the error names every violated
field, not only the first; and a record satisfying all declared constraints
yields no error. -/
theorem validate_enumerates_violations (p : Product) :
    (("price" ∈ p.violations) ↔ p.price < 0) ∧
    (("compare_at_price" ∈ p.violations) ↔ ∃ c, p.compare_at_price = some c ∧ c < 0) ∧
    (("rating" ∈ p.violations) ↔ (p.rating < 0 ∨ 5 < p.rating)) ∧
    (("review_count" ∈ p.violations) ↔ p.review_count < 0) ∧
    (p.violations = [] ↔
      (0 ≤ p.price ∧ (∀ c, p.compare_at_price = some c → 0 ≤ c) ∧
       0 ≤ p.rating ∧ p.rating ≤ 5 ∧ 0 ≤ p.review_count)) := by
  rcases hc : p.compare_at_price with _ | c
  · by_cases hp : p.price < 0 <;>
      by_cases hr : p.rating < 0 ∨ 5 < p.rating <;>
      by_cases hrc : p.review_count < 0 <;>
      simp_all [Product.violations, not_or] <;>
      (try intros) <;> (try rcases hr with hr | hr) <;> linarith
  · by_cases hp : p.price < 0 <;>
      by_cases hcc : c < 0 <;>
      by_cases hr : p.rating < 0 ∨ 5 < p.rating <;>
      by_cases hrc : p.review_count < 0 <;>
      simp_all [Product.violations, not_or] <;>
      (try intros) <;> (try rcases hr with hr | hr) <;> linarith

/-- C3 witness: the three violated fields of `badProduct` are all named, and
the fully compliant `demoProduct2` yields no error. -/
theorem validate_enumerates_violations_witness :
    "price" ∈ badProduct.violations ∧ "rating" ∈ badProduct.violations ∧
    "review_count" ∈ badProduct.violations ∧ demoProduct2.violations = [] :=
  ⟨(validate_enumerates_violations badProduct).1.mpr
     (by norm_num [badProduct, demoProduct1]),
   (validate_enumerates_violations badProduct).2.2.1.mpr
     (Or.inr (by norm_num [badProduct, demoProduct1])),
   (validate_enumerates_violations badProduct).2.2.2.1.mpr
     (by norm_num [badProduct, demoProduct1]),
   (validate_enumerates_violations demoProduct2).2.2.2.2.mpr demoProduct2_constraints⟩

/-- C4 counterexample: a record whose `title`, `slug` and `category` are all
the empty string passes validation with no error at all, contradicting the
claim that validation fails naming the offending field. -/
theorem emptyStrings_pass_validation :
    emptyFieldProduct.title = "" ∧ emptyFieldProduct.slug = "" ∧
    emptyFieldProduct.category = "" ∧ emptyFieldProduct.violations = [] := by
  refine ⟨rfl, rfl, rfl, ?_⟩
  norm_num [emptyFieldProduct, demoProduct1, Product.violations]

/-- C4 amended: validation never rejects `title`, `slug` or `category` — no
`ValidationError` entry ever names these fields (the pydantic model declares
no non-emptiness constraint on them), and a record satisfying the numeric
constraints passes validation outright, empty strings included. -/
theorem validation_ignores_empty_strings (p : Product) :
    ("title" ∉ p.violations ∧ "slug" ∉ p.violations ∧ "category" ∉ p.violations) ∧
    (0 ≤ p.price → (∀ c, p.compare_at_price = some c → 0 ≤ c) →
      0 ≤ p.rating → p.rating ≤ 5 → 0 ≤ p.review_count → p.violations = []) := by
  constructor
  · rcases hc : p.compare_at_price with _ | c <;>
      simp only [Product.violations, hc] <;>
      split_ifs <;> simp_all [List.mem_append]
  · intro h1 h2 h3 h4 h5
    exact (validate_enumerates_violations p).2.2.2.2.mpr ⟨h1, h2, h3, h4, h5⟩

/-- C4 amended witness: the all-empty-strings record passes validation. -/
theorem validation_ignores_empty_strings_witness :
    emptyFieldProduct.violations = [] :=
  (validation_ignores_empty_strings emptyFieldProduct).2
    (by norm_num [emptyFieldProduct, demoProduct1])
    (fun c hc => by
      have h1 : emptyFieldProduct.compare_at_price = some (1499 : ℚ) := rfl
      rw [h1] at hc
      injection hc with h2
      rw [← h2]
      norm_num)
    (by norm_num [emptyFieldProduct, demoProduct1])
    (by norm_num [emptyFieldProduct, demoProduct1])
    (by norm_num [emptyFieldProduct, demoProduct1])

/-- C8: `getProductBySlug` for a slug matching no product in the collection
fails with `NotFound` (HTTP 404) and with no other error kind. -/
theorem getProductBySlug_absent_404 (s : Store) (slug : String)
    (h : ∀ od ∈ s.docs, od.2.lookup "slug" ≠ some (Value.str slug)) :
    get_product s slug = .error 404 := by
  unfold get_product
  rw [find_one_slug_fresh s slug h]

/-- C8 witness: looking up a slug in the empty store yields HTTP 404. -/
theorem getProductBySlug_absent_404_witness :
    get_product ⟨0, []⟩ "missing-slug" = .error 404 :=
  getProductBySlug_absent_404 ⟨0, []⟩ "missing-slug"
    (fun od hod => absurd hod (List.not_mem_nil od))

/-- C9: the schema description served for the product entity lists exactly
the Product entity's declared fields — the keys of every dumped product
record — and that field set coincides with the field list of §3 of the
specification: title, slug, description, price, compare_at_price, category,
images, model_url, variants, badges, rating, review_count, in_stock, specs,
no more and no fewer. -/
theorem schema_fields_match_product :
    get_schema.lookup "product" = some productModelFields ∧
    productModelFields = specProductFields ∧
    ∀ p : Product, p.toDoc.map Prod.fst = productModelFields :=
  ⟨rfl, rfl, fun _ => rfl⟩

lemma create_product_endpoint_fresh (s : Store) (p : Product)
    (hval : p.violations = [])
    (hfresh : ∀ od ∈ s.docs, od.2.lookup "slug" ≠ some (Value.str p.slug)) :
    create_product_endpoint s p =
      .created ⟨s.nextId + 1, s.docs ++ [(s.nextId, p.toDoc)]⟩ (Nat.repr s.nextId) := by
  unfold create_product_endpoint
  rw [if_pos hval]
  unfold create_product
  rw [find_one_slug_fresh s p.slug hfresh]
  rfl

lemma create_product_endpoint_dup (s : Store) (p : Product)
    (hval : p.violations = [])
    (hdup : truthy (find_one s [("slug", Value.str p.slug)]) = true) :
    create_product_endpoint s p = .duplicateSlug := by
  unfold create_product_endpoint
  rw [if_pos hval]
  unfold create_product
  rw [if_pos hdup]

lemma truthy_after_insert (s : Store) (p : Product)
    (hfresh : ∀ od ∈ s.docs, od.2.lookup "slug" ≠ some (Value.str p.slug)) :
    truthy (find_one ⟨s.nextId + 1, s.docs ++ [(s.nextId, p.toDoc)]⟩
      [("slug", Value.str p.slug)]) = true := by
  rw [find_one_insert s p hfresh]
  rfl

/-- C1 counterexample: the slug check is NOT performed first.  With a store
already holding slug "specter-series-x1" and a payload carrying that same
slug but an out-of-range rating, the duplicate slug is present (the check
would fire), yet the endpoint answers with the schema validation error, not
with `DuplicateSlug` — request-body validation runs before the handler. -/
theorem createProduct_slug_check_not_first :
    truthy (find_one dupStore [("slug", Value.str invalidDupPayload.slug)]) = true ∧
    create_product_endpoint dupStore invalidDupPayload = .validationError ["rating"] ∧
    create_product_endpoint dupStore invalidDupPayload ≠ .duplicateSlug := by
  have h2 : create_product_endpoint dupStore invalidDupPayload =
      .validationError ["rating"] := by
    unfold create_product_endpoint
    rw [invalidDupPayload_violations]
    simp
  refine ⟨rfl, h2, ?_⟩
  rw [h2]
  simp

/-- C1 amended: FastAPI validates the payload against the Product schema
before the handler runs, so an invalid payload yields the validation error
regardless of its slug; for a payload that passes validation, the handler
first checks for an existing product with the payload's slug, fails with
`DuplicateSlug` on a match, and inserts otherwise — hence creating twice
with the identical valid payload succeeds the first time and yields
`DuplicateSlug` the second time. -/
theorem createProduct_validates_then_checks_slug (s : Store) (p : Product) :
    (p.violations ≠ [] → create_product_endpoint s p = .validationError p.violations) ∧
    (p.violations = [] → truthy (find_one s [("slug", Value.str p.slug)]) = true →
      create_product_endpoint s p = .duplicateSlug) ∧
    (p.violations = [] →
      (∀ od ∈ s.docs, od.2.lookup "slug" ≠ some (Value.str p.slug)) →
      create_product_endpoint s p =
        .created ⟨s.nextId + 1, s.docs ++ [(s.nextId, p.toDoc)]⟩ (Nat.repr s.nextId) ∧
      create_product_endpoint ⟨s.nextId + 1, s.docs ++ [(s.nextId, p.toDoc)]⟩ p =
        .duplicateSlug) := by
  refine ⟨?_, create_product_endpoint_dup s p, ?_⟩
  · intro h
    unfold create_product_endpoint
    rw [if_neg h]
  · intro hval hfresh
    exact ⟨create_product_endpoint_fresh s p hval hfresh,
      create_product_endpoint_dup _ p hval (truthy_after_insert s p hfresh)⟩

/-- C1 amended witness: a duplicate-slug creation against `dupStore` is
rejected, and create-twice on an empty store succeeds then duplicates. -/
theorem createProduct_validates_then_checks_slug_witness :
    create_product_endpoint dupStore demoProduct1 = .duplicateSlug ∧
    (create_product_endpoint ⟨0, []⟩ demoProduct1 =
        .created ⟨1, [(0, demoProduct1.toDoc)]⟩ "0" ∧
      create_product_endpoint ⟨1, [(0, demoProduct1.toDoc)]⟩ demoProduct1 =
        .duplicateSlug) :=
  ⟨(createProduct_validates_then_checks_slug dupStore demoProduct1).2.1
      demoProduct1_valid rfl,
   (createProduct_validates_then_checks_slug ⟨0, []⟩ demoProduct1).2.2
      demoProduct1_valid (fun od hod => absurd hod (List.not_mem_nil od))⟩

/-- C2: for every valid Product payload whose slug is not already in the
collection, `createProduct` succeeds with a non-empty text identifier, and
a subsequent `getProductBySlug` with that slug returns exactly the payload's
record extended with that identifier in the `id` field. -/
theorem createProduct_then_getBySlug (s : Store) (p : Product)
    (hval : p.violations = [])
    (hfresh : ∀ od ∈ s.docs, od.2.lookup "slug" ≠ some (Value.str p.slug)) :
    ∃ s2 t, create_product_endpoint s p = .created s2 t ∧ t ≠ "" ∧
      get_product s2 p.slug = .ok (p.toDoc ++ [("id", Value.str t)]) := by
  refine ⟨⟨s.nextId + 1, s.docs ++ [(s.nextId, p.toDoc)]⟩, Nat.repr s.nextId,
    create_product_endpoint_fresh s p hval hfresh, repr_ne_empty s.nextId, ?_⟩
  unfold get_product
  rw [find_one_insert s p hfresh]
  rfl

/-- C2 witness: creating the first demo product in an empty store and
reading it back by slug. -/
theorem createProduct_then_getBySlug_witness :
    ∃ s2 t, create_product_endpoint ⟨0, []⟩ demoProduct1 = .created s2 t ∧ t ≠ "" ∧
      get_product s2 demoProduct1.slug = .ok (demoProduct1.toDoc ++ [("id", Value.str t)]) :=
  createProduct_then_getBySlug ⟨0, []⟩ demoProduct1 demoProduct1_valid
    (fun od hod => absurd hod (List.not_mem_nil od))

/-- C5: `seed()` on an empty "product" collection inserts exactly the two
demo records — slugs "specter-series-x1" and "nebula-pro-v", all field
values the literal constants — and returns the success status; on a
non-empty collection it returns the no-op status and leaves the collection
unchanged, so a second call after a successful seed changes nothing. -/
theorem seed_on_empty_then_noop (s : Store) (hs : s.docs = []) :
    seed_demo_products (some s) =
      .ok (some ⟨s.nextId + 1 + 1,
            [(s.nextId, demoProduct1.toDoc), (s.nextId + 1, demoProduct2.toDoc)]⟩,
        ⟨"ok", "Seeded demo products"⟩) ∧
    demoProduct1.slug = "specter-series-x1" ∧
    demoProduct2.slug = "nebula-pro-v" ∧
    (∀ s2 : Store, s2.docs ≠ [] →
      seed_demo_products (some s2) = .ok (some s2, ⟨"ok", "Products already present"⟩)) := by
  refine ⟨?_, rfl, rfl, ?_⟩
  · rcases s with ⟨nid, docs⟩
    obtain rfl : docs = [] := hs
    rfl
  · intro s2 h2
    rcases s2 with ⟨nid2, docs2⟩
    have h3 : docs2 ≠ [] := h2
    simp only [seed_demo_products, filter_matches_nil]
    rw [if_pos (List.length_pos.mpr h3)]

/-- C5 witness: seeding the pristine empty store, then observing that the
seeded store is non-empty, so the second call is a no-op. -/
theorem seed_on_empty_then_noop_witness :
    seed_demo_products (some ⟨0, []⟩) =
      .ok (some ⟨0 + 1 + 1, [(0, demoProduct1.toDoc), (0 + 1, demoProduct2.toDoc)]⟩,
        ⟨"ok", "Seeded demo products"⟩) ∧
    seed_demo_products (some ⟨2, [(0, demoProduct1.toDoc), (1, demoProduct2.toDoc)]⟩) =
      .ok (some ⟨2, [(0, demoProduct1.toDoc), (1, demoProduct2.toDoc)]⟩,
        ⟨"ok", "Products already present"⟩) :=
  ⟨(seed_on_empty_then_noop ⟨0, []⟩ rfl).1,
   (seed_on_empty_then_noop ⟨0, []⟩ rfl).2.2.2
      ⟨2, [(0, demoProduct1.toDoc), (1, demoProduct2.toDoc)]⟩
      (fun h => List.noConfusion h)⟩

/-- C6: `listProducts(limit)` never returns more than `limit` records, and
`listProducts(20)` on the collection holding exactly the two seeded records
returns exactly those two records (with their `id` fields exposed). -/
theorem listProducts_respects_limit :
    (∀ (s : Store) (limit : Nat), (list_products s limit).length ≤ limit) ∧
    list_products seededStore 20 =
      [demoProduct1.toDoc ++ [("id", Value.str "0")],
       demoProduct2.toDoc ++ [("id", Value.str "1")]] := by
  constructor
  · intro s limit
    unfold list_products get_documents
    rw [List.length_map, List.length_map]
    exact List.length_take_le _ _
  · rfl

/-- C7: every record returned by `listProducts` and by `getProductBySlug`
carries the store-assigned identifier as the text field `id`, and the
store-native `_id` field is never present in a returned record. -/
theorem returned_records_expose_text_id (s : Store) (limit : Nat) :
    (∀ d ∈ list_products s limit,
      d.lookup "_id" = none ∧ ∃ t, d.lookup "id" = some (Value.str t)) ∧
    (∀ slug d, get_product s slug = .ok d →
      d.lookup "_id" = none ∧ ∃ t, d.lookup "id" = some (Value.str t)) := by
  constructor
  · intro d hd
    unfold list_products at hd
    rcases List.mem_map.mp hd with ⟨d0, hd0, rfl⟩
    rcases mem_get_documents_shape s [] limit d0 hd0 with ⟨n, fields, rfl⟩
    exact ⟨exposeId_cons_lookup_uid n fields,
      Nat.repr n, exposeId_cons_lookup_id n fields⟩
  · intro slug d h
    unfold get_product at h
    rcases hfo : find_one s [("slug", Value.str slug)] with _ | d0
    · rw [hfo] at h
      exact Except.noConfusion h
    · rw [hfo] at h
      rcases find_one_shape s _ d0 hfo with ⟨n, fields, rfl⟩
      simp only [List.isEmpty_cons, Bool.false_eq_true, if_false] at h
      injection h with h2
      rw [← h2]
      exact ⟨exposeId_cons_lookup_uid n fields,
        Nat.repr n, exposeId_cons_lookup_id n fields⟩

/-- C7 witness: both read paths on the seeded store expose `id` and hide
`_id` for the first demo record. -/
theorem returned_records_expose_text_id_witness :
    ((demoProduct1.toDoc ++ [("id", Value.str "0")]).lookup "_id" = none ∧
      ∃ t, (demoProduct1.toDoc ++ [("id", Value.str "0")]).lookup "id" =
        some (Value.str t)) ∧
    ((demoProduct1.toDoc ++ [("id", Value.str "0")]).lookup "_id" = none ∧
      ∃ t, (demoProduct1.toDoc ++ [("id", Value.str "0")]).lookup "id" =
        some (Value.str t)) :=
  ⟨(returned_records_expose_text_id seededStore 20).1
      (demoProduct1.toDoc ++ [("id", Value.str "0")]) (List.mem_cons_self _ _),
   (returned_records_expose_text_id seededStore 20).2 "specter-series-x1"
      (demoProduct1.toDoc ++ [("id", Value.str "0")]) rfl⟩

/-- C10: when the database handle is absent (`db = None`), `seed()` treats
the document count as 0 and enters the insertion branch (which then fails
in the storage adapter), never the "already present" no-op branch; the
no-op reply is returned only when a live handle reports a positive count,
in which case the state is left unchanged. -/
theorem seed_noop_requires_live_handle :
    seed_demo_products none = .error .storageUnavailable ∧
    ∀ (db res : Option Store),
      seed_demo_products db = .ok (res, ⟨"ok", "Products already present"⟩) →
      ∃ s, db = some s ∧ 0 < s.docs.length ∧ res = db := by
  refine ⟨rfl, ?_⟩
  intro db res h
  rcases db with _ | s
  · exact Except.noConfusion h
  · rcases s with ⟨nid, docs⟩
    simp only [seed_demo_products, filter_matches_nil] at h
    by_cases hpos : docs.length > 0
    · rw [if_pos hpos] at h
      injection h with h2
      injection h2 with h3 h4
      exact ⟨⟨nid, docs⟩, rfl, hpos, h3.symm⟩
    · rw [if_neg hpos] at h
      injection h with h2
      injection h2 with h3 h4
      injection h4 with h5 h6
      exact absurd h6 (by decide)

/-- C10 witness: the no-op reply on the seeded store indeed comes with a
live handle holding a positive count and an unchanged state. -/
theorem seed_noop_requires_live_handle_witness :
    ∃ s, (some seededStore : Option Store) = some s ∧ 0 < s.docs.length ∧
      (some seededStore : Option Store) = some seededStore :=
  seed_noop_requires_live_handle.2 (some seededStore) (some seededStore) rfl

end Catalog
